import Mathlib

/-!
Verification of the tsd-file-api core against its specification.

The definitions below are shallow embeddings of the handlers in
src/tsdfileapi/api.py: filesystem state is explicit (chunk files as lists of
(number, size) pairs, file contents as lists of bytes), Python integers are
Int/Nat, and each handler method becomes a state-passing function.  Comments
cite the line numbers of the source they translate.
-/

namespace Tsd

/-- State of one resumable upload as the engine sees it on disk and in the
per-user resumable database.  `chunks` lists the completed (no `.part`
suffix) chunk files of `<upload_id>/` as (chunk number, size) pairs in
ascending chunk-number order, which is the order the `natural_keys` sorting
produces for names `<filename>.chunk.<n>` (utils.py is not under src/;
modelled from the spec: "the largest `n` on disk ... must equal `n-1`").
`mergedSize` is the byte size of the merged file `<filename>.<upload_id>`;
`db` is the list of (chunk_num, chunk_size) rows recorded by
`resumable_db_update_with_chunk_info`. -/
structure RSt where
  chunks : List (Nat × Nat)
  mergedSize : Nat
  db : List (Nat × Nat)
deriving DecidableEq

/-- Total size recorded in the resumable database for an upload id
(`resumable_db_get_total_size`). -/
def storeTotal (st : RSt) : Nat := (st.db.map (fun c => c.2)).sum

/-- Check whether chunk number `n` has a completed file on disk. -/
def hasChunk (st : RSt) (n : Nat) : Bool := st.chunks.any (fun c => c.1 = n)

/-- Remove the chunk file numbered `n` (`os.remove`). -/
def removeChunk (n : Nat) (chunks : List (Nat × Nat)) : List (Nat × Nat) :=
  chunks.filter (fun c => c.1 ≠ n)

/-- StreamHandler.refuse_upload_if_not_in_sequential_order (api.py 1056-1063):
`previous_chunk_num` is the number of the last completed chunk on disk; the
request is refused when `chunk_num <= previous_chunk_num or
(chunk_num - previous_chunk_num) >= 2` (Python integers, hence `Int`). -/
def refuse_upload_if_not_in_sequential_order (previous_chunk_num chunk_num : Nat) : Bool :=
  decide ((chunk_num : Int) ≤ (previous_chunk_num : Int)) ||
    decide (2 ≤ (chunk_num : Int) - (previous_chunk_num : Int))

/-- Result of StreamHandler.merge_resumables for a non-end chunk: `ok` is a
normal return, `err` models the `raise Exception('could not merge ...')`
executed only when the rollback itself fails. -/
inductive MergeRes
  | ok (st : RSt)
  | err (st : RSt)
deriving DecidableEq

/-- Chunk pruning step of merge_resumables (api.py 1199-1202): for
`chunk_num >= 5` the chunk four requests back is deleted; `os.remove`
raises if that file is missing. -/
def pruneOldChunk (st : RSt) (chunk_num : Nat) : MergeRes :=
  if 5 ≤ chunk_num then
    if hasChunk st (chunk_num - 4) then
      .ok ⟨removeChunk (chunk_num - 4) st.chunks, st.mergedSize, st.db⟩
    else .err st
  else .ok st

/-- StreamHandler.merge_resumables, non-end branch (api.py 1174-1203).  The
chunk file `(chunk_num, chunk_size)` is already on disk: the caller renamed
the received `.part` file first.  `appendFails` injects an exception while
`shutil.copyfileobj` runs, after `tornBytes` bytes landed in the merged
file; `rollbackFails` injects a failure of the rollback
(`os.remove(chunk)` + truncate to `size_before_merge`).  On a failed append
with a successful rollback the exception is swallowed and execution
continues with the pruning step; the database row is only written on a
successful append. -/
def merge_resumables (appendFails rollbackFails : Bool) (tornBytes : Nat)
    (st : RSt) (chunk_num chunk_size : Nat) : MergeRes :=
  let size_before_merge := st.mergedSize
  if appendFails then
    if rollbackFails then .err ⟨st.chunks, size_before_merge + tornBytes, st.db⟩
    else
      pruneOldChunk ⟨removeChunk chunk_num st.chunks, size_before_merge, st.db⟩ chunk_num
  else
    pruneOldChunk ⟨st.chunks, st.mergedSize + chunk_size,
      st.db ++ [(chunk_num, chunk_size)]⟩ chunk_num

/-- HTTP status and the `message` field of the JSON body of a response. -/
structure Response where
  status : Nat
  message : String
deriving DecidableEq

/-- Inner StreamHandler PATCH flow for a chunk number `chunk_num > 1`
(api.py: prepare 1239-1329 → handle_resumable_request 1066-1127 →
data_received → patch 1419-1434).  The duplicate check of line 1100 tests
the CWD-relative path `<filename>.chunk.<n>` and never sees the real chunk
file under `<project_dir>/<upload_id>/`, so it does not enter this flow.
When the sequential-order check raises, prepare's outer handler answers
status 200 with body `{"message": "chunk_order_incorrect"}` (lines
1323-1329) without touching disk or database; with an empty chunk
directory, `full_chunks_on_disk[-1]` raises IndexError and prepare finishes
with the default 200 status and the generic failure body.  Otherwise the
chunk body is written to a `.part` file, renamed to the chunk file, and
merged; an exception escaping the patch method surfaces as a 500. -/
def stream_patch_chunk (appendFails rollbackFails : Bool) (tornBytes : Nat)
    (st : RSt) (chunk_num chunk_size : Nat) : Response × RSt :=
  match st.chunks.getLast? with
  | none => (⟨200, "stream processing failed"⟩, st)
  | some lastc =>
    if refuse_upload_if_not_in_sequential_order lastc.1 chunk_num then
      (⟨200, "chunk_order_incorrect"⟩, st)
    else
      match merge_resumables appendFails rollbackFails tornBytes
          ⟨st.chunks ++ [(chunk_num, chunk_size)], st.mergedSize, st.db⟩
          chunk_num chunk_size with
      | .ok st2 => (⟨201, "write ok"⟩, st2)
      | .err st2 => (⟨500, "could not merge"⟩, st2)

/-- ProxyHandler.patch (api.py 1645-1661): copy the inner status and body,
except that an inner body whose `message` is `chunk_order_incorrect` is
rewritten to status 400. -/
def proxy_patch_rewrite (inner : Response) : Response :=
  if inner.message = "chunk_order_incorrect" then ⟨400, inner.message⟩ else inner

/-- Full path of a client PATCH for chunk `chunk_num > 1`: edge proxy →
inner stream handler → proxy status rewrite. -/
def proxied_patch (appendFails rollbackFails : Bool) (tornBytes : Nat)
    (st : RSt) (chunk_num chunk_size : Nat) : Response × RSt :=
  let r := stream_patch_chunk appendFails rollbackFails tornBytes st chunk_num chunk_size
  (proxy_patch_rewrite r.1, r.2)

/-- Characterisation of the sequential-order check: it passes exactly for
the successor of the last completed chunk. -/
theorem refuse_eq_false_iff (m k : Nat) :
    refuse_upload_if_not_in_sequential_order m k = false ↔ k = m + 1 := by
  simp only [refuse_upload_if_not_in_sequential_order, Bool.or_eq_false_iff,
    decide_eq_false_iff_not, not_le, not_lt]
  omega

/-- C1: for a resumable whose completed on-disk chunks reach chunk `m`, a
PATCH submitting chunk `k > 1` succeeds (201 through the proxy) iff
`k = m + 1`; otherwise the client receives status 400 with body message
`chunk_order_incorrect` and the state — in particular the merged file's
size and the store total — is unchanged.  `hwindow` is the engine's sliding
window invariant (chunk `k - 4` is still on disk when chunk `k ≥ 5`
arrives), satisfied by every state the engine produces. -/
theorem resumable_patch_sequential_order
    (st : RSt) (k s m ms : Nat)
    (hm : st.chunks.getLast? = some (m, ms))
    (hk : 1 < k)
    (hwindow : 5 ≤ k → hasChunk st (k - 4) = true) :
    ((proxied_patch false false 0 st k s).1.status = 201 ↔ k = m + 1) ∧
    (k ≠ m + 1 →
      (proxied_patch false false 0 st k s).1 = ⟨400, "chunk_order_incorrect"⟩ ∧
      (proxied_patch false false 0 st k s).2 = st) ∧
    (k = m + 1 →
      (proxied_patch false false 0 st k s).2.mergedSize = st.mergedSize + s ∧
      storeTotal (proxied_patch false false 0 st k s).2 = storeTotal st + s) := by
  by_cases hcase : k = m + 1
  · have h1 : refuse_upload_if_not_in_sequential_order m k = false :=
      (refuse_eq_false_iff m k).mpr hcase
    have hproxy : ∀ st', proxied_patch false false 0 st k s =
        (⟨201, "write ok"⟩, st') → True := fun _ _ => trivial
    simp only [proxied_patch, stream_patch_chunk, hm, h1, Bool.false_eq_true, if_false,
      merge_resumables]
    by_cases h5 : 5 ≤ k
    · have hne : ¬ (k = k - 4) := by omega
      have hhas : hasChunk ⟨st.chunks ++ [(k, s)], st.mergedSize + s,
          st.db ++ [(k, s)]⟩ (k - 4) = true := by
        have := hwindow h5
        simp only [hasChunk, List.any_append, List.any_cons, List.any_nil,
          Bool.or_eq_true, decide_eq_true_eq] at *
        tauto
      simp only [pruneOldChunk, h5, if_true, hhas, if_true, proxy_patch_rewrite]
      refine ⟨by simp [hcase], fun hne2 => absurd hcase hne2, fun _ => ?_⟩
      constructor
      · simp
      · simp [storeTotal]
    · simp only [pruneOldChunk, h5, if_false, proxy_patch_rewrite]
      refine ⟨by simp [hcase], fun hne2 => absurd hcase hne2, fun _ => ?_⟩
      constructor
      · simp
      · simp [storeTotal]
  · have h1 : refuse_upload_if_not_in_sequential_order m k = true := by
      cases h : refuse_upload_if_not_in_sequential_order m k
      · exact absurd ((refuse_eq_false_iff m k).mp h) hcase
      · rfl
    simp only [proxied_patch, stream_patch_chunk, hm, h1, if_true, proxy_patch_rewrite]
    refine ⟨by simp [hcase], fun _ => by simp, fun h => absurd h hcase⟩

/-- Witness for `resumable_patch_sequential_order` at a concrete state:
chunks 1 and 2 on disk, submitting chunk 3. -/
theorem resumable_patch_sequential_order_witness :
    ((proxied_patch false false 0 ⟨[(1, 10), (2, 10)], 20, [(1, 10), (2, 10)]⟩ 3 5).1.status = 201
       ↔ 3 = 2 + 1) ∧
    (3 ≠ 2 + 1 →
      (proxied_patch false false 0 ⟨[(1, 10), (2, 10)], 20, [(1, 10), (2, 10)]⟩ 3 5).1 =
        ⟨400, "chunk_order_incorrect"⟩ ∧
      (proxied_patch false false 0 ⟨[(1, 10), (2, 10)], 20, [(1, 10), (2, 10)]⟩ 3 5).2 =
        ⟨[(1, 10), (2, 10)], 20, [(1, 10), (2, 10)]⟩) ∧
    (3 = 2 + 1 →
      (proxied_patch false false 0 ⟨[(1, 10), (2, 10)], 20, [(1, 10), (2, 10)]⟩ 3 5).2.mergedSize =
        (⟨[(1, 10), (2, 10)], 20, [(1, 10), (2, 10)]⟩ : RSt).mergedSize + 5 ∧
      storeTotal (proxied_patch false false 0 ⟨[(1, 10), (2, 10)], 20, [(1, 10), (2, 10)]⟩ 3 5).2 =
        storeTotal ⟨[(1, 10), (2, 10)], 20, [(1, 10), (2, 10)]⟩ + 5) :=
  resumable_patch_sequential_order ⟨[(1, 10), (2, 10)], 20, [(1, 10), (2, 10)]⟩ 3 5 2 10
    rfl (by decide) (by decide)

/-- Removing the chunk numbered `n` leaves no chunk file numbered `n`,
whatever else is later filtered out. -/
theorem any_removeChunk_self (cs : List (Nat × Nat)) (n : Nat) :
    ((removeChunk n cs).any fun c => c.1 = n) = false := by
  simp only [removeChunk, List.any_filter]
  simp

/-- Filtering preserves the absence of a chunk number. -/
theorem any_filter_of_any_eq_false (cs : List (Nat × Nat)) (p : Nat × Nat → Bool)
    (n : Nat) (h : (cs.any fun c => c.1 = n) = false) :
    ((cs.filter p).any fun c => c.1 = n) = false := by
  simp only [List.any_filter]
  simp only [List.any_eq_false] at h ⊢
  intro c hc
  have := h c hc
  simp_all

/-- C5 (counterexample): with chunks 1 and 2 on disk and chunk 3 arriving,
an append failure after 3 torn bytes whose rollback succeeds is swallowed:
the client receives 201 (success), not an error status, while the chunk
was rolled back (state unchanged). -/
theorem merge_failure_reports_success_counterexample :
    (proxied_patch true false 3 ⟨[(1, 10), (2, 10)], 20, [(1, 10), (2, 10)]⟩ 3 5).1 =
      ⟨201, "write ok"⟩ ∧
    (proxied_patch true false 3 ⟨[(1, 10), (2, 10)], 20, [(1, 10), (2, 10)]⟩ 3 5).1.status ≠ 400 ∧
    (proxied_patch true false 3 ⟨[(1, 10), (2, 10)], 20, [(1, 10), (2, 10)]⟩ 3 5).1.status ≠ 500 ∧
    (proxied_patch true false 3 ⟨[(1, 10), (2, 10)], 20, [(1, 10), (2, 10)]⟩ 3 5).2 =
      ⟨[(1, 10), (2, 10)], 20, [(1, 10), (2, 10)]⟩ := by decide

/-- C5 (amended): when appending chunk `k = m + 1` fails mid-copy, the
engine truncates the merged file back to its pre-append size, removes the
chunk file and records nothing in the store; but the error reaches the
client only when the rollback itself also fails (500) — when the rollback
succeeds, the handler answers 201 as if the chunk had been received. -/
theorem merge_failure_rollback_behavior (st : RSt) (k s tb m ms : Nat)
    (hm : st.chunks.getLast? = some (m, ms))
    (hk : k = m + 1) (hk1 : 1 < k)
    (hwindow : 5 ≤ k → hasChunk st (k - 4) = true) :
    ((proxied_patch true false tb st k s).1.status = 201 ∧
     (proxied_patch true false tb st k s).2.mergedSize = st.mergedSize ∧
     hasChunk (proxied_patch true false tb st k s).2 k = false ∧
     (proxied_patch true false tb st k s).2.db = st.db) ∧
    (proxied_patch true true tb st k s).1.status = 500 := by
  have h1 : refuse_upload_if_not_in_sequential_order m k = false :=
    (refuse_eq_false_iff m k).mpr hk
  have hremove : ((removeChunk k (st.chunks ++ [(k, s)])).any fun c => c.1 = k) = false :=
    any_removeChunk_self _ k
  constructor
  · simp only [proxied_patch, stream_patch_chunk, hm, h1, Bool.false_eq_true, if_false,
      merge_resumables, if_true]
    by_cases h5 : 5 ≤ k
    · have hne : ¬ (k = k - 4) := by omega
      have hhas : hasChunk ⟨removeChunk k (st.chunks ++ [(k, s)]), st.mergedSize, st.db⟩
          (k - 4) = true := by
        have hw := hwindow h5
        simp only [hasChunk, removeChunk, List.any_filter, List.any_append, List.any_cons,
          List.any_nil, Bool.or_eq_true, List.any_eq_true, decide_eq_true_eq] at hw ⊢
        rcases hw with ⟨c, hc, hcn⟩
        exact Or.inl ⟨c, hc, by simp [hcn]; omega⟩
      simp only [pruneOldChunk, h5, if_true, hhas, if_true, proxy_patch_rewrite]
      refine ⟨by simp, by trivial, ?_, by trivial⟩
      simp only [hasChunk, removeChunk]
      exact any_filter_of_any_eq_false _ _ _ hremove
    · simp only [pruneOldChunk, h5, if_false, proxy_patch_rewrite]
      exact ⟨by simp, by trivial, hremove, by trivial⟩
  · simp only [proxied_patch, stream_patch_chunk, hm, h1, Bool.false_eq_true, if_false,
      merge_resumables, if_true, proxy_patch_rewrite]
    simp

/-- Witness for `merge_failure_rollback_behavior` at a concrete state. -/
theorem merge_failure_rollback_behavior_witness :
    ((proxied_patch true false 3 ⟨[(1, 10), (2, 10)], 20, [(1, 10), (2, 10)]⟩ 3 5).1.status = 201 ∧
     (proxied_patch true false 3 ⟨[(1, 10), (2, 10)], 20, [(1, 10), (2, 10)]⟩ 3 5).2.mergedSize =
       (⟨[(1, 10), (2, 10)], 20, [(1, 10), (2, 10)]⟩ : RSt).mergedSize ∧
     hasChunk (proxied_patch true false 3 ⟨[(1, 10), (2, 10)], 20, [(1, 10), (2, 10)]⟩ 3 5).2 3 =
       false ∧
     (proxied_patch true false 3 ⟨[(1, 10), (2, 10)], 20, [(1, 10), (2, 10)]⟩ 3 5).2.db =
       (⟨[(1, 10), (2, 10)], 20, [(1, 10), (2, 10)]⟩ : RSt).db) ∧
    (proxied_patch true true 3 ⟨[(1, 10), (2, 10)], 20, [(1, 10), (2, 10)]⟩ 3 5).1.status = 500 :=
  merge_failure_rollback_behavior ⟨[(1, 10), (2, 10)], 20, [(1, 10), (2, 10)]⟩ 3 5 3 2 10
    rfl rfl (by decide) (by decide)

/-- Inner StreamHandler PATCH flow for `chunk=1` (api.py 1113-1120 together
with prepare and patch): the handler mints a fresh upload id (`uuid4()`),
creates `<project_dir>/<id>/`, inserts a database row for the user, receives
the chunk body and merges it into a brand-new merged file; existing
resumables are never consulted.  The duplicate check of line 1100 tests the
CWD-relative path `<filename>.chunk.1` (`cwdHasChunkFile`), which is not
where chunk files live; when it does fire, prepare's outer handler
(1323-1329) finishes with the default 200 status and the generic failure
body, because `chunk_order_correct` is still `True` there. -/
def stream_patch_first_chunk (cwdHasChunkFile : Bool) (freshId : String) (s : Nat)
    (project : List (String × RSt)) : Response × List (String × RSt) :=
  if cwdHasChunkFile then (⟨200, "stream processing failed"⟩, project)
  else (⟨201, "write ok"⟩, project ++ [(freshId, ⟨[(1, s)], s, [(1, s)]⟩)])

/-- C8 (counterexample): the project already holds a resumable whose chunk 1
is on disk; re-submitting chunk 1 does not fail with 400 — it answers 201
and mints a second resumable with a fresh upload id. -/
theorem duplicate_first_chunk_new_resumable :
    (stream_patch_first_chunk false "3a6cff2d" 10
        [("ee7f4a55", ⟨[(1, 10)], 10, [(1, 10)]⟩)]).1.status = 201 ∧
    (stream_patch_first_chunk false "3a6cff2d" 10
        [("ee7f4a55", ⟨[(1, 10)], 10, [(1, 10)]⟩)]).1.status ≠ 400 ∧
    (stream_patch_first_chunk false "3a6cff2d" 10
        [("ee7f4a55", ⟨[(1, 10)], 10, [(1, 10)]⟩)]).2 =
      [("ee7f4a55", ⟨[(1, 10)], 10, [(1, 10)]⟩),
       ("3a6cff2d", ⟨[(1, 10)], 10, [(1, 10)]⟩)] := by decide

/-- C8 (amended): a chunk request with number `k > 1` whose chunk file is
already on disk is rejected through the sequential-order check: status 400
with body `chunk_order_incorrect` at the proxy, and the state — merged
file, chunk files, database — is unchanged. -/
theorem duplicate_later_chunk_rejected (st : RSt) (k s s' m ms : Nat)
    (hm : st.chunks.getLast? = some (m, ms))
    (hk : 1 < k)
    (hdup : (k, s') ∈ st.chunks)
    (hmax : ∀ c ∈ st.chunks, c.1 ≤ m) :
    (proxied_patch false false 0 st k s).1 = ⟨400, "chunk_order_incorrect"⟩ ∧
    (proxied_patch false false 0 st k s).2 = st := by
  have hle : k ≤ m := hmax (k, s') hdup
  have h1 : refuse_upload_if_not_in_sequential_order m k = true := by
    simp only [refuse_upload_if_not_in_sequential_order, Bool.or_eq_true, decide_eq_true_eq]
    left
    exact_mod_cast hle
  simp only [proxied_patch, stream_patch_chunk, hm, h1, if_true, proxy_patch_rewrite]
  simp

/-- Witness for `duplicate_later_chunk_rejected` at a concrete state:
chunk 2 is on disk and is submitted again. -/
theorem duplicate_later_chunk_rejected_witness :
    (proxied_patch false false 0 ⟨[(1, 10), (2, 10)], 20, [(1, 10), (2, 10)]⟩ 2 7).1 =
      ⟨400, "chunk_order_incorrect"⟩ ∧
    (proxied_patch false false 0 ⟨[(1, 10), (2, 10)], 20, [(1, 10), (2, 10)]⟩ 2 7).2 =
      ⟨[(1, 10), (2, 10)], 20, [(1, 10), (2, 10)]⟩ :=
  duplicate_later_chunk_rejected ⟨[(1, 10), (2, 10)], 20, [(1, 10), (2, 10)]⟩ 2 7 10 2 10
    rfl (by decide) (by decide) (by decide)

/-- HTTP methods the upload handlers dispatch on. -/
inductive Method
  | POST
  | PUT
  | PATCH
deriving DecidableEq

/-- File mode chosen by StreamHandler.prepare (api.py 1264-1269): POST opens
append mode, PUT and PATCH open truncating write mode. -/
def streamFilemode : Method → String
  | .POST => "ab+"
  | .PUT => "wb+"
  | .PATCH => "wb+"

/-- File modes the form-data handlers pass to handle_data (api.py 603-610
and 627-634): POST and PATCH append, only PUT truncates. -/
def formDataFilemode : Method → String
  | .POST => "ab+"
  | .PATCH => "ab+"
  | .PUT => "wb+"

/-- Contents (as byte lists) of the two path slots a direct upload touches:
the canonical target `<project_dir>/<filename>` and the partial-file name
`<filename>.<uuid4>.part` minted for this request; `none` means the path
does not exist. -/
structure DirectFs where
  canonical : Option (List Nat)
  partFile : Option (List Nat)
deriving DecidableEq

/-- StreamHandler.prepare for a direct (non-resumable) upload (api.py
1277-1311): refuse when the `.part` path exists; rename an existing
canonical file to the `.part` name; swap `self.path`/`self.path_part` so
that `self.path` is the `.part` name; open `self.path` with the
method-determined mode — `ab+` keeps the renamed file's bytes, `wb+`
truncates them, and either mode creates an empty file when nothing was
renamed.  The result is the filesystem state with the `.part` file open for
writing; GenericFormDataHandler.write_file (api.py 553-589) performs the
same steps. -/
def streamPrepare (mode : String) (fs : DirectFs) : Option DirectFs :=
  if fs.partFile.isSome then none
  else
    let initContents := match fs.canonical with
      | some old => if mode = "ab+" then old else []
      | none => []
    some ⟨none, some initContents⟩

/-- StreamHandler.data_received without errors (api.py 1337-1338): append
the received bytes to the open `.part` file. -/
def streamDataReceived (fs : DirectFs) (chunk : List Nat) : DirectFs :=
  ⟨fs.canonical, fs.partFile.map (fun c => c ++ chunk)⟩

/-- Error handler of StreamHandler.data_received (api.py 1358-1364): when a
write fails after `received` bytes were appended, the handler closes the
file and renames the `.part` file to the canonical name, leaving the
partially-received body at the canonical path. -/
def streamDataReceivedError (fs : DirectFs) (received : List Nat) : DirectFs :=
  ⟨fs.partFile.map (fun c => c ++ received), none⟩

/-- Commit step of StreamHandler.post and StreamHandler.put for the default
content type (api.py 1368-1371 and 1394-1397): close the file and rename
the `.part` name back to the canonical name. -/
def streamFinalize (fs : DirectFs) : DirectFs :=
  ⟨fs.partFile, none⟩

/-- Complete successful direct upload through the stream handler. -/
def streamDirectUpload (m : Method) (fs : DirectFs) (body : List Nat) : Option DirectFs :=
  (streamPrepare (streamFilemode m) fs).map
    (fun fs1 => streamFinalize (streamDataReceived fs1 body))

/-- Direct upload through the stream handler that dies with a write error
after `received` bytes of the body. -/
def streamUploadWriteError (m : Method) (fs : DirectFs) (received : List Nat) :
    Option DirectFs :=
  (streamPrepare (streamFilemode m) fs).map
    (fun fs1 => streamDataReceivedError fs1 received)

/-- GenericFormDataHandler.write_files + write_file (api.py 534-589): an
empty body is rejected (line 539-541); otherwise the handler performs the
same rename/open/write/rename-back dance as the stream handler, with the
form-data file mode. -/
def formDataWrite (m : Method) (fs : DirectFs) (body : List Nat) : Option DirectFs :=
  if body = [] then none
  else
    (streamPrepare (formDataFilemode m) fs).map
      (fun fs1 => streamFinalize (streamDataReceived fs1 body))

/-- C6 (counterexample): a PUT of byte `9` over an existing file `[1,2,3]`
ends with the new data at the canonical name and nothing at the `.part`
name — the prior contents were truncated away inside the renamed file, not
preserved for inspection. -/
theorem direct_upload_prior_file_not_preserved :
    streamDirectUpload .PUT ⟨some [1, 2, 3], none⟩ [9] = some ⟨some [9], none⟩ ∧
    (streamDirectUpload .PUT ⟨some [1, 2, 3], none⟩ [9]).map DirectFs.partFile ≠
      some (some [1, 2, 3]) := by decide

/-- C6 (amended): on a successful direct upload over an existing file the
new data lands at the canonical name, but the prior file is not preserved
under the `.part` name: it becomes the write target after being renamed to
the `.part` name — PUT truncates it, POST appends after it — and the final
rename leaves nothing at the `.part` name. -/
theorem direct_upload_final_state (old body : List Nat) :
    streamDirectUpload .PUT ⟨some old, none⟩ body = some ⟨some body, none⟩ ∧
    streamDirectUpload .POST ⟨some old, none⟩ body = some ⟨some (old ++ body), none⟩ := by
  simp [streamDirectUpload, streamPrepare, streamFilemode, streamDataReceived, streamFinalize]

/-- C7 (counterexample): starting from no file at the canonical path, a PUT
that suffers a write error after the first byte `1` of its body leaves that
partially-received byte at the canonical path even though the upload did
not complete. -/
theorem atomic_commit_write_error_counterexample :
    streamUploadWriteError .PUT ⟨none, none⟩ [1] = some ⟨some [1], none⟩ ∧
    (streamUploadWriteError .PUT ⟨none, none⟩ [1]).map DirectFs.canonical ≠ some none := by
  decide

/-- C7 (amended): during an error-free direct upload the canonical path does
not exist at any point after prepare — every partial receive state has
`canonical = none` — and only the final commit after the full body places
the uploaded bytes at the canonical name; but when a write error occurs
mid-stream the handler's error path renames the partially-written file to
the canonical name. -/
theorem direct_upload_atomic_commit (old : Option (List Nat)) (body received : List Nat) :
    ((streamPrepare (streamFilemode .PUT) ⟨old, none⟩).map
      (fun fs1 => (streamDataReceived fs1 received).canonical)) = some none ∧
    streamDirectUpload .PUT ⟨old, none⟩ body = some ⟨some body, none⟩ ∧
    streamUploadWriteError .PUT ⟨old, none⟩ received = some ⟨some received, none⟩ := by
  cases old <;>
    simp [streamPrepare, streamFilemode, streamDataReceived, streamFinalize,
      streamDirectUpload, streamUploadWriteError, streamDataReceivedError]

/-- C10 (counterexample): FormDataHandler.patch passes file mode `ab+`, not
`wb+` (api.py 606-607): a PATCH over an existing form-data file appends to
the pre-existing bytes instead of replacing them. -/
theorem formdata_patch_append_mode :
    formDataFilemode .PATCH = "ab+" ∧
    formDataFilemode .PATCH ≠ "wb+" ∧
    formDataWrite .PATCH ⟨some [1, 2], none⟩ [9] = some ⟨some [1, 2, 9], none⟩ := by decide

/-- C10 (amended): in the stream handler POST opens `ab+` (append after the
pre-existing bytes) while PUT and PATCH open `wb+` (discard and replace);
in the form-data handlers POST and PATCH open `ab+` and only PUT opens
`wb+`, with the corresponding effects on an existing file. -/
theorem upload_filemode_effects (old body : List Nat) (b : Nat) :
    streamFilemode .POST = "ab+" ∧ streamFilemode .PUT = "wb+" ∧
    streamFilemode .PATCH = "wb+" ∧
    formDataFilemode .POST = "ab+" ∧ formDataFilemode .PATCH = "ab+" ∧
    formDataFilemode .PUT = "wb+" ∧
    streamDirectUpload .POST ⟨some old, none⟩ body = some ⟨some (old ++ body), none⟩ ∧
    streamDirectUpload .PUT ⟨some old, none⟩ body = some ⟨some body, none⟩ ∧
    formDataWrite .PATCH ⟨some old, none⟩ (b :: body) = some ⟨some (old ++ b :: body), none⟩ ∧
    formDataWrite .PUT ⟨some old, none⟩ (b :: body) = some ⟨some (b :: body), none⟩ := by
  simp [streamDirectUpload, formDataWrite, streamPrepare, streamFilemode, formDataFilemode,
    streamDataReceived, streamFinalize]

/-- Response to an export GET: status, the Content-Length header when set,
and the streamed body bytes. -/
structure RangeResponse where
  status : Nat
  contentLength : Option Nat
  body : List Nat
deriving DecidableEq

/-- Sequential read of `c` bytes at position `pos` (`fd.read`). -/
def readChunk (file : List Nat) (pos c : Nat) : List Nat := (file.drop pos).take c

/-- Send loop of FileStreamerHandler.get for a range request (api.py
436-442): while the last read returned data and `sent` — the running count
of bytes requested from the file so far — has not exceeded `n`
(`bytes_to_read`), write the data, read the next `c` bytes and add `c` to
`sent`.  The fuel `n + 2` passed by `serveRange` exceeds the number of
iterations the loop can perform, since each one adds `c ≥ 1` to `sent` or
stops. -/
def streamRangeLoop (file : List Nat) (c n : Nat) :
    Nat → Nat → Nat → List Nat → List Nat
  | 0, _, _, _ => []
  | fuel + 1, pos, sent, data =>
    if data ≠ [] ∧ sent ≤ n then
      let next := readChunk file pos c
      data ++ streamRangeLoop file c n fuel (pos + next.length) (sent + c) next
    else []

/-- FileStreamerHandler.get for a request `Range: bytes=a-b` (api.py
408-443), after the If-Range precondition: `b > size` gives 416 (lines
423-425); otherwise `bytes_to_read = b - a + 1` is set as Content-Length
(line 429), the per-request chunk size is clamped down to `bytes_to_read`
when larger (lines 434-435), the file is positioned at `a`, one chunk is
read with `sent` becoming `c`, and the send loop streams the rest. -/
def serveRange (chunkSize : Nat) (file : List Nat) (a b : Nat) : RangeResponse :=
  let full_file_size := file.length
  if b > full_file_size then ⟨416, none, []⟩
  else
    let n := b - a + 1
    let c := if chunkSize > n then n else chunkSize
    let data0 := readChunk file a c
    ⟨200, some n, streamRangeLoop file c n (n + 2) (a + data0.length) c data0⟩

/-- Sanity check of the loop model: when the chunk size covers the whole
range the requested bytes are served exactly (scenario S4 of the spec). -/
theorem range_ok_when_chunk_covers :
    serveRange 4096 [0, 1, 2] 1 2 = ⟨200, some 2, [1, 2]⟩ ∧
    serveRange 2 [10, 20, 30] 0 1 = ⟨200, some 2, [10, 20]⟩ := by decide

/-- C2: at export chunk size 2, a GET with `Range: bytes=0-2` against the
three-byte file `[10, 20, 30]` sets Content-Length 3 but streams only the
two bytes `[10, 20]`: the guard `sent <= bytes_to_read` stops the loop
after `⌊n / c⌋` full chunks, so the body is neither the requested range
nor of length `b - a + 1`. -/
theorem range_body_truncated :
    serveRange 2 [10, 20, 30] 0 2 = ⟨200, some 3, [10, 20]⟩ ∧
    serveRange 2 [10, 20, 30] 0 2 ≠ ⟨200, some 3, [10, 20, 30]⟩ ∧
    (serveRange 2 [10, 20, 30] 0 2).body.length ≠ 2 - 0 + 1 := by decide

/-- Return value of ResumablesHandler.repair_inconsistent_resumable as a
Python value: the function can return `False` (empty chunk list), the bare
chunk list (sizes already equal), a `(chunks, warning, recommendation)`
triple, or — when the final `if` of the `try` block is not entered, i.e.
when `merged > total` or the deficit exceeds the last chunk — fall off the
end of the function and return `None`. -/
inductive RepairReturn
  | rrFalse
  | rrChunks
  | rrTriple (warning recommendation : Option String)
  | rrNone
deriving DecidableEq

/-- ResumablesHandler.repair_inconsistent_resumable (api.py 768-811) over
the sizes of the on-disk chunks; the result is the merged file's size after
the call together with the Python return value.  The repair truncates the
merged file to `sum_chunks_size - last_chunk_size` and re-appends the last
chunk; the filesystem operations themselves succeed in this model. -/
def repair_inconsistent_resumable (chunkSizes : List Nat)
    (merged_file_size sum_chunks_size : Nat) : Nat × RepairReturn :=
  match chunkSizes.getLast? with
  | none => (merged_file_size, .rrFalse)
  | some last_chunk_size =>
    if merged_file_size = sum_chunks_size then (merged_file_size, .rrChunks)
    else if merged_file_size < sum_chunks_size ∧
        sum_chunks_size - merged_file_size ≤ last_chunk_size then
      let target_size := sum_chunks_size - last_chunk_size
      let new_merged_size := target_size + last_chunk_size
      if new_merged_size = sum_chunks_size then (new_merged_size, .rrTriple none none)
      else (new_merged_size, .rrTriple (some "not sure what to do") (some "end"))
    else (merged_file_size, .rrNone)

/-- Fields of the resumable info that the inner `info` helper of
get_resumable_chunk_info returns on its plain path (api.py 826-851).  The
helper is only ever invoked as `info(chunks)`, so `recommendation` and
`warning` carry their defaults, `None`, on every plain return. -/
structure ResumableInfo where
  chunk_size : Nat
  max_chunk : Nat
  previous_offset : Nat
  next_offset : Nat
  recommendation : Option String
  warning : Option String
deriving DecidableEq

/-- Plain return of `info(chunks)` once the merged size matches the store
total: number and size of the last completed chunk, offsets from the store
total. -/
def resumableInfoOf (chunks : List (Nat × Nat)) (total : Nat) : Option ResumableInfo :=
  match chunks.getLast? with
  | none => none
  | some lastc => some ⟨lastc.2, lastc.1, total - lastc.2, total, none, none⟩

/-- ResumablesHandler.get_resumable_chunk_info (api.py 814-859) on the
completed chunks (number, size), merged-file size and store total: result
is the merged-file size after any repair, paired with the info returned to
the caller — `none` models the all-`None` eight-tuple of line 848.  When
the sizes disagree the code calls the repair; a `(chunks, None, None)`
triple leads to the recursive `info(chunks)` call, now consistent; a `None`
or `False` return makes the tuple unpacking at line 842 raise, producing
the all-`None` result; a triple carrying `end` re-enters `info(chunks)`
with the sizes still inconsistent and recurses until the interpreter's
limit, also ending in the all-`None` result. -/
def get_resumable_chunk_info (chunks : List (Nat × Nat)) (mergedSize total : Nat) :
    Nat × Option ResumableInfo :=
  match chunks.getLast? with
  | none => (mergedSize, none)
  | some _ =>
    if mergedSize = total then (mergedSize, resumableInfoOf chunks total)
    else
      match repair_inconsistent_resumable (chunks.map (fun c => c.2)) mergedSize total with
      | (newSize, .rrTriple none none) =>
        if newSize = total then (newSize, resumableInfoOf chunks total)
        else (newSize, none)
      | (newSize, _) => (newSize, none)

/-- Deficit repair restores equality: when the merged file is short by at
most the last chunk's size (and, as for every consistent store, the last
chunk is no larger than the total), the truncate-and-re-append sequence
leaves the merged file at exactly the store total. -/
theorem repair_restores_equality (sizes : List Nat) (merged total lastSize : Nat)
    (hl : sizes.getLast? = some lastSize) (hlt : merged < total)
    (hd : total - merged ≤ lastSize) (hle : lastSize ≤ total) :
    repair_inconsistent_resumable sizes merged total = (total, .rrTriple none none) := by
  have hne : ¬ (merged = total) := by omega
  have hcond : merged < total ∧ total - merged ≤ lastSize := ⟨hlt, hd⟩
  have heq : total - lastSize + lastSize = total := by omega
  simp [repair_inconsistent_resumable, hl, hne, hcond, heq]

/-- C3: with chunks of sizes 10 and 10 and store total 20, a merged file of
15 bytes (deficit 5, at most the last chunk's 10) is repaired to 20 bytes
and reported healthy; but a merged file of 30 bytes (`merged > total`)
yields no `recommendation: end` — the repair falls off the end of the
function returning `None`, and the info query reports only `None` fields. -/
theorem torn_merge_repair_and_overrun :
    get_resumable_chunk_info [(1, 10), (2, 10)] 15 20 =
      (20, some ⟨10, 2, 10, 20, none, none⟩) ∧
    repair_inconsistent_resumable [10, 10] 30 20 = (30, .rrNone) ∧
    get_resumable_chunk_info [(1, 10), (2, 10)] 30 20 = (30, none) := by decide

/-- Candidate resumable directory as seen by
ResumablesHandler.find_relevant_resumable_dir: `id` is a row of the
per-user resumable database (so ownership by the user is implicit),
`dirSize` and `dirMtime` are the `os.stat` results for
`<project_dir>/<id>`, `validUuid` models `_IS_VALID_UUID.match(id)` and
`onDisk` models `os.path.lexists` (utils.py is not under src/; modelled
from the spec: "ids owned by user, present on disk, names matching the
UUID pattern").  `firstChunk` is the name of the first completed chunk file
in the directory, as find_nth_chunk (api.py 694-700) returns it for
`n = 1` (also modelled from the spec, via `natural_keys` ordering). -/
structure Candidate where
  id : String
  dirSize : Nat
  dirMtime : Nat
  validUuid : Bool
  onDisk : Bool
  firstChunk : String
deriving DecidableEq

/-- ResumablesHandler.resumables_cmp (api.py 683-691).  Despite the names
`a_time`/`b_time` in the source, the values compared are the first
components of the `(os.stat(dir).st_size, upload_id)` pairs built at line
724, i.e. directory sizes; the comparator never answers 0. -/
def resumables_cmp (a b : Nat × Candidate) : Int :=
  if a.1 > b.1 then -1 else if a.1 < b.1 then 1 else 1

/-- Insertion step of a comparison sort driven by `resumables_cmp`. -/
def insertCmp (x : Nat × Candidate) : List (Nat × Candidate) → List (Nat × Candidate)
  | [] => [x]
  | y :: ys => if resumables_cmp x y = -1 then x :: y :: ys else y :: insertCmp x ys

/-- Comparison sort with `resumables_cmp`, modelling the Python 2
`candidates.sort(self.resumables_cmp)` call at api.py 725: for candidate
lists with pairwise distinct sizes the comparator is a strict total order
and every comparison sort, the source's included, produces this
descending-by-size order. -/
def sortCmp : List (Nat × Candidate) → List (Nat × Candidate)
  | [] => []
  | x :: xs => insertCmp x (sortCmp xs)

/-- Prefix match on character lists, the base step of Python's `in`. -/
def leadMatch : List Char → List Char → Bool
  | [], _ => true
  | _ :: _, [] => false
  | a :: ps, b :: ss => a == b && leadMatch ps ss

/-- Python's `in` operator on strings: containment at any offset. -/
def occursIn (pat : List Char) : List Char → Bool
  | [] => leadMatch pat []
  | s :: rest => leadMatch pat (s :: rest) || occursIn pat rest

/-- Selection loop of find_relevant_resumable_dir (api.py 726-731): walk
the sorted candidates and return the first whose first chunk contains the
filename (`if filename in first_chunk` — substring containment, not a
prefix test). -/
def pickFirstMatch (filename : String) : List (Nat × Candidate) → Option String
  | [] => none
  | x :: rest =>
    if occursIn filename.data x.2.firstChunk.data then some x.2.id
    else pickFirstMatch filename rest

/-- ResumablesHandler.find_relevant_resumable_dir without an upload id
(api.py 703-731): keep the database ids that are valid UUIDs and exist on
disk, pair each with `os.stat(dir).st_size`, sort with `resumables_cmp`,
and pick the first match for the filename. -/
def find_relevant_resumable_dir (potential : List Candidate) (filename : String) :
    Option String :=
  let candidates := ((potential.filter fun r => r.validUuid && r.onDisk).map
    (fun r => (r.dirSize, r)))
  pickFirstMatch filename (sortCmp candidates)

/-- Older but larger candidate directory of the discovery example. -/
def candBigOld : Candidate :=
  ⟨"11111111-aaaa", 5000, 100, true, true, "data.csv.chunk.1"⟩

/-- Newer but smaller candidate directory of the discovery example. -/
def candSmallNew : Candidate :=
  ⟨"22222222-bbbb", 10, 200, true, true, "data.csv.chunk.1"⟩

/-- C4: with two owned, on-disk, UUID-named candidates whose first chunks
both begin with `data.csv`, the engine returns the candidate whose
directory has the larger `st_size` even though the other is more recent:
candidates are ordered by directory size, not by mtime. -/
theorem discovery_picks_largest_not_most_recent :
    find_relevant_resumable_dir [candSmallNew, candBigOld] "data.csv" = some candBigOld.id ∧
    candBigOld.dirMtime < candSmallNew.dirMtime ∧
    occursIn "data.csv".data candBigOld.firstChunk.data = true ∧
    occursIn "data.csv".data candSmallNew.firstChunk.data = true := by decide

/-- Modulus of 32-bit words; md5 arithmetic (hashlib.md5 in the source,
implemented here after RFC 1321) is over `Nat` reduced modulo `2 ^ 32`. -/
def w32 : Nat := 4294967296

/-- Addition modulo `2 ^ 32`. -/
def add32 (x y : Nat) : Nat := (x + y) % w32

/-- Bitwise complement of a 32-bit word. -/
def not32 (x : Nat) : Nat := 4294967295 - x

/-- Left rotation of a 32-bit word by `s` places. -/
def rotl32 (x s : Nat) : Nat := ((x * 2 ^ s) % w32) + x / 2 ^ (32 - s)

/-- Round function F of md5. -/
def mdAuxF (x y z : Nat) : Nat := (x &&& y) ||| (not32 x &&& z)

/-- Round function G of md5. -/
def mdAuxG (x y z : Nat) : Nat := (x &&& z) ||| (y &&& not32 z)

/-- Round function H of md5. -/
def mdAuxH (x y z : Nat) : Nat := x ^^^ y ^^^ z

/-- Round function I of md5. -/
def mdAuxI (x y z : Nat) : Nat := y ^^^ (x ||| not32 z)

/-- Sine-derived constant table T of md5. -/
def mdT : List Nat :=
  [0xd76aa478, 0xe8c7b756, 0x242070db, 0xc1bdceee,
   0xf57c0faf, 0x4787c62a, 0xa8304613, 0xfd469501,
   0x698098d8, 0x8b44f7af, 0xffff5bb1, 0x895cd7be,
   0x6b901122, 0xfd987193, 0xa679438e, 0x49b40821,
   0xf61e2562, 0xc040b340, 0x265e5a51, 0xe9b6c7aa,
   0xd62f105d, 0x02441453, 0xd8a1e681, 0xe7d3fbc8,
   0x21e1cde6, 0xc33707d6, 0xf4d50d87, 0x455a14ed,
   0xa9e3e905, 0xfcefa3f8, 0x676f02d9, 0x8d2a4c8a,
   0xfffa3942, 0x8771f681, 0x6d9d6122, 0xfde5380c,
   0xa4beea44, 0x4bdecfa9, 0xf6bb4b60, 0xbebfbc70,
   0x289b7ec6, 0xeaa127fa, 0xd4ef3085, 0x04881d05,
   0xd9d4d039, 0xe6db99e5, 0x1fa27cf8, 0xc4ac5665,
   0xf4292244, 0x432aff97, 0xab9423a7, 0xfc93a039,
   0x655b59c3, 0x8f0ccc92, 0xffeff47d, 0x85845dd1,
   0x6fa87e4f, 0xfe2ce6e0, 0xa3014314, 0x4e0811a1,
   0xf7537e82, 0xbd3af235, 0x2ad7d2bb, 0xeb86d391]

/-- Per-round left-rotation amounts of md5. -/
def mdShift : List Nat :=
  [7, 12, 17, 22, 7, 12, 17, 22, 7, 12, 17, 22, 7, 12, 17, 22,
   5, 9, 14, 20, 5, 9, 14, 20, 5, 9, 14, 20, 5, 9, 14, 20,
   4, 11, 16, 23, 4, 11, 16, 23, 4, 11, 16, 23, 4, 11, 16, 23,
   6, 10, 15, 21, 6, 10, 15, 21, 6, 10, 15, 21, 6, 10, 15, 21]

/-- Message-word index used in round `i` of md5. -/
def mdWordIdx (i : Nat) : Nat :=
  if i < 16 then i
  else if i < 32 then (5 * i + 1) % 16
  else if i < 48 then (3 * i + 5) % 16
  else (7 * i) % 16

/-- Round function selector of md5. -/
def mdAux (i : Nat) (b c d : Nat) : Nat :=
  if i < 16 then mdAuxF b c d
  else if i < 32 then mdAuxG b c d
  else if i < 48 then mdAuxH b c d
  else mdAuxI b c d

/-- Little-endian value of a byte list. -/
def leNat : List Nat → Nat
  | [] => 0
  | b :: rest => b % 256 + 256 * leNat rest

/-- Little-endian encoding of `x` on `k` bytes. -/
def leBytes : Nat → Nat → List Nat
  | 0, _ => []
  | k + 1, x => x % 256 :: leBytes k (x / 256)

/-- Decode a 64-byte block into its sixteen little-endian 32-bit words. -/
def blockWords : List Nat → List Nat
  | b0 :: b1 :: b2 :: b3 :: rest => leNat [b0, b1, b2, b3] :: blockWords rest
  | _ => []

/-- Split a byte list into blocks of 64, with enough fuel to finish. -/
def toBlocksAux : Nat → List Nat → List (List Nat)
  | 0, _ => []
  | _, [] => []
  | fuel + 1, b :: l => (b :: l).take 64 :: toBlocksAux fuel ((b :: l).drop 64)

/-- Split a byte list into blocks of 64 bytes. -/
def toBlocks (l : List Nat) : List (List Nat) := toBlocksAux (l.length + 1) l

/-- Md5 padding: a `0x80` byte, zeros to 56 modulo 64, then the bit length
on eight little-endian bytes. -/
def mdPad (msg : List Nat) : List Nat :=
  let len := msg.length
  msg ++ [128] ++ List.replicate ((119 - len % 64) % 64) 0 ++ leBytes 8 (8 * len)

/-- One of the 64 md5 rounds on the running `(a, b, c, d)` state. -/
def mdRound (bw : List Nat) (st : Nat × Nat × Nat × Nat) (i : Nat) : Nat × Nat × Nat × Nat :=
  let (a, b, c, d) := st
  let f := add32 (add32 (add32 a (mdAux i b c d)) (mdT.getD i 0)) (bw.getD (mdWordIdx i) 0)
  (d, add32 b (rotl32 f (mdShift.getD i 0)), b, c)

/-- Process one 64-byte block of md5 and add the result into the state. -/
def mdProcessBlock (st : Nat × Nat × Nat × Nat) (block : List Nat) : Nat × Nat × Nat × Nat :=
  let bw := blockWords block
  let fin := (List.range 64).foldl (mdRound bw) st
  (add32 st.1 fin.1, add32 st.2.1 fin.2.1, add32 st.2.2.1 fin.2.2.1, add32 st.2.2.2 fin.2.2.2)

/-- Md5 digest of a byte list, as sixteen bytes. -/
def md5Bytes (msg : List Nat) : List Nat :=
  let init : Nat × Nat × Nat × Nat := (0x67452301, 0xefcdab89, 0x98badcfe, 0x10325476)
  let fin := (toBlocks (mdPad msg)).foldl mdProcessBlock init
  leBytes 4 fin.1 ++ leBytes 4 fin.2.1 ++ leBytes 4 fin.2.2.1 ++ leBytes 4 fin.2.2.2

/-- Lowercase hex digit of a value below 16. -/
def hexDigit (n : Nat) : Char :=
  if n < 10 then Char.ofNat (48 + n) else Char.ofNat (87 + n)

/-- Two lowercase hex digits of a byte. -/
def byteHex (b : Nat) : List Char := [hexDigit (b / 16), hexDigit (b % 16)]

/-- Md5 hexdigest of a byte list (`hashlib.md5(...).hexdigest()`). -/
def md5hex (msg : List Nat) : String := String.mk ((md5Bytes msg).flatMap byteHex)

/-- UTF-8 bytes of an ASCII string (`str.encode('utf-8')` for the strings
at stake here). -/
def strBytes (s : String) : List Nat := s.data.map (fun ch => ch.toNat)

set_option maxRecDepth 100000 in
/-- Sanity check of the md5 model against the RFC 1321 test suite value for
`"abc"`. -/
theorem md5hex_abc : md5hex (strBytes "abc") = "900150983cd24fb0d6963f7d28e17f72" := by
  decide

/-- FileStreamerHandler.compute_etag (api.py 305-328): the md5 hexdigest of
the UTF-8 bytes of `str(mtime)`; the float `os.stat(...).st_mtime` is
modelled by its string form `mtimeStr`. -/
def compute_etag (mtimeStr : String) : String := md5hex (strBytes mtimeStr)

/-- Range branch of FileStreamerHandler.get with its `If-Range`
precondition (api.py 400-407): when the header value differs from the
currently computed etag the request fails with 400 ("The resource has
changed, get everything from the start again") before any range parsing;
otherwise it proceeds to the range service. -/
def serveRangeWithPrecondition (chunkSize : Nat) (file : List Nat) (mtimeStr : String)
    (ifRange : Option String) (a b : Nat) : RangeResponse :=
  match ifRange with
  | some e =>
    if e ≠ compute_etag mtimeStr then ⟨400, none, []⟩
    else serveRange chunkSize file a b
  | none => serveRange chunkSize file a b

/-- C9: the download ETag equals the md5 hexdigest of the stringified mtime
of the served file, and a range request whose `If-Range` value differs from
the currently computed ETag — as after an mtime change between two range
requests — fails with status 400 and an empty body. -/
theorem etag_if_range_mismatch (mtimeStr e : String) (h : e ≠ compute_etag mtimeStr)
    (chunkSize : Nat) (file : List Nat) (a b : Nat) :
    compute_etag mtimeStr = md5hex (strBytes mtimeStr) ∧
    serveRangeWithPrecondition chunkSize file mtimeStr (some e) a b = ⟨400, none, []⟩ :=
  ⟨rfl, by simp [serveRangeWithPrecondition, h]⟩

/-- Witness for `etag_if_range_mismatch`: an If-Range value one character
longer than the computed etag provably differs from it. -/
theorem etag_if_range_mismatch_witness :
    compute_etag "1700000000.0" = md5hex (strBytes "1700000000.0") ∧
    serveRangeWithPrecondition 2 [10, 20, 30] "1700000000.0"
      (some (compute_etag "1700000000.0" ++ "x")) 0 1 = ⟨400, none, []⟩ :=
  etag_if_range_mismatch "1700000000.0" (compute_etag "1700000000.0" ++ "x")
    (fun h => by
      have h2 := congrArg String.length h
      rw [String.length_append] at h2
      have hx : "x".length = 1 := rfl
      omega)
    2 [10, 20, 30] 0 1

end Tsd
